import Mathlib

/-!
Verification of the core logic of `get_ref_key.py` (ref-tools-keygen).

The Python source is shallowly embedded: strings become `List Char`,
stateful loops become recursive functions with explicit counters,
exception points become `Except` values or Boolean oracles, and the
wall-clock is idealised (every network call takes zero time, so time
advances only at the explicit `asyncio.sleep` calls).
-/

set_option maxRecDepth 8000

/-- Characters of a string literal, used to transcribe Python string literals. -/
def chars (s : String) : List Char := s.data

/-- Python `str.lower()` restricted to the ASCII inputs the program handles. -/
def lowerL (cs : List Char) : List Char := cs.map Char.toLower

/-- Python substring containment `needle in haystack`: some contiguous slice of
`haystack` equals `needle`. -/
def containsSub (haystack needle : List Char) : Bool :=
  match haystack with
  | [] => needle.isPrefixOf []
  | _ :: rest => needle.isPrefixOf haystack || containsSub rest needle

/-! ## Key-shape classification (RefToolsAutomation.extract_api_key, lines 462-490)

`extract_api_key` applies two inline key-shape checks to candidate strings:
one to an element's `value` attribute (line 471) and one to an element's
inner text (lines 484-486).  The inner-text check additionally rejects
candidates containing any word of a fixed denylist. -/

/-- Denylist of substrings from line 486 of the source:
`["typescript", "node.js", "error", "failed", "search", "docs", "install", "verify"]`. -/
def denylist : List (List Char) :=
  [chars "typescript", chars "node.js", chars "error", chars "failed",
   chars "search", chars "docs", chars "install", chars "verify"]

/-- Line 471: `(api_key.startswith("ref_") or len(api_key) > 30) and len(api_key) < 200`. -/
def looksLikeKeyValue (s : List Char) : Bool :=
  ((chars "ref_").isPrefixOf s || decide (s.length > 30)) && decide (s.length < 200)

/-- True when `s.lower()` contains some denylisted word
(line 486: `any(word in api_key.lower() for word in [...])`). -/
def hasDenylisted (s : List Char) : Bool :=
  denylist.any (fun w => containsSub (lowerL s) w)

/-- Lines 484-486: `api_key.startswith("ref_") or (len(api_key) > 30 and len(api_key) < 200)`
followed by the denylist filter `not any(word in api_key.lower() for word in [...])`. -/
def looksLikeKeyText (s : List Char) : Bool :=
  ((chars "ref_").isPrefixOf s || (decide (s.length > 30) && decide (s.length < 200)))
  && !(hasDenylisted s)

/-- Claim C1 counterexample: the claim says every "ref_"-prefixed candidate is
accepted regardless of length, but the value-attribute check (line 471) rejects a
"ref_"-prefixed string of length 200, and the inner-text check (lines 484-486)
rejects a "ref_"-prefixed string containing the denylisted word "verify". -/
theorem C1_counterexample :
    (chars "ref_").isPrefixOf (chars "ref_" ++ List.replicate 196 'a') = true
    ∧ looksLikeKeyValue (chars "ref_" ++ List.replicate 196 'a') = false
    ∧ (chars "ref_").isPrefixOf (chars "ref_verify_token_value") = true
    ∧ looksLikeKeyText (chars "ref_verify_token_value") = false := by
  decide

/-- Claim C1 (amended): for a "ref_"-prefixed candidate, the value-attribute
check accepts it exactly when its length is below 200 (no lower length bound),
and the inner-text check accepts it exactly when it contains no denylisted
substring (regardless of length). -/
theorem C1_amended_thm (s : List Char) (h : (chars "ref_").isPrefixOf s = true) :
    looksLikeKeyValue s = decide (s.length < 200)
    ∧ looksLikeKeyText s = !(hasDenylisted s) := by
  constructor
  · simp [looksLikeKeyValue, h]
  · simp [looksLikeKeyText, h]

/-- Witness for C1: concrete "ref_"-prefixed inputs evaluated through the
amended theorem. -/
theorem C1_witness :
    looksLikeKeyValue (chars "ref_abc") = true
    ∧ looksLikeKeyText (chars "ref_abc") = true := by
  have h1 := C1_amended_thm (chars "ref_abc") (by decide)
  refine ⟨?_, ?_⟩
  · rw [h1.1]; decide
  · rw [h1.2]; decide

/-- Claim C2 counterexample: the claim says a 30-character all-alphanumeric
candidate with no denylisted substring is accepted (length range given as the
inclusive [30,200]), but both checks use the strict bound `len > 30` and reject
it; and the claim says a denylisted candidate without the prefix is rejected,
but the value-attribute check has no denylist and accepts one. -/
theorem C2_counterexample :
    looksLikeKeyText (List.replicate 30 'a') = false
    ∧ looksLikeKeyValue (List.replicate 30 'a') = false
    ∧ hasDenylisted (chars "error" ++ List.replicate 33 'a') = true
    ∧ (chars "ref_").isPrefixOf (chars "error" ++ List.replicate 33 'a') = false
    ∧ looksLikeKeyValue (chars "error" ++ List.replicate 33 'a') = true := by
  decide

/-- Claim C2 (amended): candidates of length strictly between 30 and 200 with
no denylisted substring are accepted by both checks (the character class is
never inspected); candidates of length at most 30 without the "ref_" prefix are
rejected by both; a denylisted substring without the prefix forces rejection by
the inner-text check only — the value-attribute check ignores the denylist and
accepts any candidate of length strictly between 30 and 200. -/
theorem C2_amended_thm (s : List Char) :
    (30 < s.length → s.length < 200 → hasDenylisted s = false →
      looksLikeKeyText s = true ∧ looksLikeKeyValue s = true)
    ∧ (s.length ≤ 30 → (chars "ref_").isPrefixOf s = false →
      looksLikeKeyText s = false ∧ looksLikeKeyValue s = false)
    ∧ (hasDenylisted s = true → (chars "ref_").isPrefixOf s = false →
      looksLikeKeyText s = false)
    ∧ (30 < s.length → s.length < 200 → looksLikeKeyValue s = true) := by
  refine ⟨?_, ?_, ?_, ?_⟩
  · intro h1 h2 h3
    constructor
    · simp [looksLikeKeyText, h1, h2, h3]
    · simp [looksLikeKeyValue, h1, h2]
  · intro h1 h2
    constructor
    · simp [looksLikeKeyText, h2]; omega
    · simp [looksLikeKeyValue, h2]; omega
  · intro h1 h2
    simp [looksLikeKeyText, h1, h2]
  · intro h1 h2
    simp [looksLikeKeyValue, h1, h2]

/-- Witness for C2: concrete candidates pushed through each conjunct of the
amended theorem. -/
theorem C2_witness :
    looksLikeKeyText (List.replicate 31 'b') = true
    ∧ looksLikeKeyValue (List.replicate 31 'b') = true
    ∧ looksLikeKeyText (chars "short") = false
    ∧ looksLikeKeyText (chars "docs" ++ List.replicate 30 'c') = false := by
  refine ⟨?_, ?_, ?_, ?_⟩
  · exact ((C2_amended_thm (List.replicate 31 'b')).1 (by decide) (by decide) (by decide)).1
  · exact ((C2_amended_thm (List.replicate 31 'b')).1 (by decide) (by decide) (by decide)).2
  · exact ((C2_amended_thm (chars "short")).2.1 (by decide) (by decide)).1
  · exact (C2_amended_thm (chars "docs" ++ List.replicate 30 'c')).2.2.1 (by decide) (by decide)

/-! ## Verification-link extraction (GuerrillaMailClient._fetch_email_body, lines 236-251)

The four regex patterns of line 236-241, in order:
  1. `https?://(?:www\.)?ref\.tools/verify[^\s<>"']+`
  2. `https?://(?:www\.)?ref\.tools/confirm[^\s<>"']+`
  3. `https?://(?:www\.)?ref\.tools/[^\s<>"']*verify[^\s<>"']*`
  4. `https?://(?:www\.)?ref\.tools/[^\s<>"']*confirm[^\s<>"']*`
They are applied with `re.search` (leftmost match) and the first pattern that
matches short-circuits, returning `match.group(0)`.  The matcher below encodes
exactly these patterns over `List Char`. -/

/-- Membership in the Python character class `\s` for the ASCII range. -/
def pyIsSpace (c : Char) : Bool :=
  c = ' ' || c = '\t' || c = '\n' || c = '\x0d' || c = '\x0b' || c = '\x0c'

/-- A character matched by the class complement `[^\s<>"']`. -/
def urlChar (c : Char) : Bool :=
  !(pyIsSpace c || c = '<' || c = '>' || c = '"' || c = '\x27')

/-- Consume a literal piece of the pattern, returning the remainder. -/
def dropLit (lit cs : List Char) : Option (List Char) :=
  if lit.isPrefixOf cs then some (cs.drop lit.length) else none

/-- Match `https?://` at the current position, greedily trying the `s` first,
returning the consumed text and the remainder. -/
def dropScheme (cs : List Char) : Option (List Char × List Char) :=
  match dropLit (chars "https://") cs with
  | some r => some (chars "https://", r)
  | none =>
    match dropLit (chars "http://") cs with
    | some r => some (chars "http://", r)
    | none => none

/-- Match `(?:www\.)?ref\.tools/`: the optional greedy `www.` is tried first
and backtracked if `ref.tools/` does not follow it. -/
def dropHost (cs : List Char) : Option (List Char × List Char) :=
  match dropLit (chars "www.") cs with
  | some r =>
    match dropLit (chars "ref.tools/") r with
    | some r2 => some (chars "www.ref.tools/", r2)
    | none =>
      match dropLit (chars "ref.tools/") cs with
      | some r2 => some (chars "ref.tools/", r2)
      | none => none
  | none =>
    match dropLit (chars "ref.tools/") cs with
    | some r2 => some (chars "ref.tools/", r2)
    | none => none

/-- Tail of patterns 1 and 2: the literal `verify`/`confirm` followed by the
greedy `[^\s<>"']+` (at least one character; consumes the maximal run). -/
def matchTailPath (word rest : List Char) : Option (List Char) :=
  match dropLit word rest with
  | none => none
  | some r =>
    let run := r.takeWhile urlChar
    if run.isEmpty then none else some (word ++ run)

/-- Tail of patterns 3 and 4: `[^\s<>"']*verify[^\s<>"']*`.  The greedy stars
make the match consume the whole maximal `[^\s<>"']` run, and the pattern
succeeds exactly when the word occurs inside that run. -/
def matchTailAny (word rest : List Char) : Option (List Char) :=
  let run := rest.takeWhile urlChar
  if containsSub run word then some run else none

/-- The four link patterns of lines 236-241, in source order. -/
inductive LinkPat where
  | verifyPath
  | confirmPath
  | verifyAny
  | confirmAny
deriving DecidableEq

/-- Anchored match of a pattern at the start of `cs`, returning `group(0)`. -/
def matchAt (p : LinkPat) (cs : List Char) : Option (List Char) :=
  match dropScheme cs with
  | none => none
  | some (scheme, afterScheme) =>
    match dropHost afterScheme with
    | none => none
    | some (host, rest) =>
      let tail :=
        match p with
        | .verifyPath => matchTailPath (chars "verify") rest
        | .confirmPath => matchTailPath (chars "confirm") rest
        | .verifyAny => matchTailAny (chars "verify") rest
        | .confirmAny => matchTailAny (chars "confirm") rest
      match tail with
      | none => none
      | some t => some (scheme ++ host ++ t)

/-- Python `re.search`: scan start positions left to right and return the
match at the first position where the pattern matches. -/
def reSearch (p : LinkPat) : List Char → Option (List Char)
  | [] => none
  | c :: rest =>
    match matchAt p (c :: rest) with
    | some m => some m
    | none => reSearch p rest

/-- Lines 243-247: try each pattern in order against the whole body; the first
pattern that matches anywhere wins and its leftmost match is returned; if no
pattern matches the function returns `None` (line 251). -/
def extractLink (body : List Char) : Option (List Char) :=
  match reSearch .verifyPath body with
  | some m => some m
  | none =>
    match reSearch .confirmPath body with
    | some m => some m
    | none =>
      match reSearch .verifyAny body with
      | some m => some m
      | none => reSearch .confirmAny body

/-- Claim C5: the body is scanned against the ordered pattern list; when both
the specific verify-path pattern and the generic verify-anywhere pattern match,
the verify-path pattern (first in priority order) wins and its leftmost match
is returned; when no pattern matches, the extraction yields none. -/
theorem C5_order_thm (body : List Char) :
    (∀ u, reSearch LinkPat.verifyPath body = some u →
      (reSearch LinkPat.verifyAny body).isSome = true →
      extractLink body = some u)
    ∧ (reSearch LinkPat.verifyPath body = none →
      reSearch LinkPat.confirmPath body = none →
      reSearch LinkPat.verifyAny body = none →
      reSearch LinkPat.confirmAny body = none →
      extractLink body = none) := by
  constructor
  · intro u hu _
    simp [extractLink, hu]
  · intro h1 h2 h3 h4
    simp [extractLink, h1, h2, h3, h4]

/-- Witness for C5: a body matching both the verify-path pattern and the
generic verify-anywhere pattern returns the verify-path match, and a body with
no link yields none. -/
theorem C5_witness :
    extractLink (chars "Visit https://ref.tools/verify/abc123 now") =
      some (chars "https://ref.tools/verify/abc123")
    ∧ extractLink (chars "hello world, no link here") = none := by
  constructor
  · exact (C5_order_thm (chars "Visit https://ref.tools/verify/abc123 now")).1
      (chars "https://ref.tools/verify/abc123") (by decide) (by decide)
  · exact (C5_order_thm (chars "hello world, no link here")).2
      (by decide) (by decide) (by decide) (by decide)

/-! ## Inbox polling (GuerrillaMailClient.poll_for_email, lines 152-203)

Constants from lines 56-57 of the source.  The loop runs while the elapsed
time is below the timeout; each iteration makes one `get_email_list` call,
scans the returned messages, and sleeps `EMAIL_CHECK_INTERVAL` seconds.  We
idealise the clock: network calls are instantaneous, so the elapsed time at
iteration `k` is `k * EMAIL_CHECK_INTERVAL`. -/

def EMAIL_CHECK_INTERVAL : Nat := 3

def MAX_EMAIL_WAIT_TIME : Nat := 120

/-- One inbox entry as returned by the `get_email_list` call. -/
structure InboxMessage where
  mail_from : List Char
  mail_subject : List Char
  mail_body : List Char
deriving DecidableEq

/-- Line 192: `"ref" in sender or "verify" in subject.lower()`, where
`sender = email.get("mail_from", "").lower()`. -/
def relevantEmail (m : InboxMessage) : Bool :=
  containsSub (lowerL m.mail_from) (chars "ref")
  || containsSub (lowerL m.mail_subject) (chars "verify")

/-- Lines 187-198: walk the inbox list in order; for each flagged message
fetch its body and extract a link; return the first link found, continuing
past flagged messages whose body yields no link. -/
def scanInbox : List InboxMessage → Option (List Char)
  | [] => none
  | m :: rest =>
    if relevantEmail m then
      match extractLink m.mail_body with
      | some l => some l
      | none => scanInbox rest
    else scanInbox rest

/-- The polling loop of lines 172-203.  `inbox k` is the message list the
provider returns on the k-th `get_email_list` call.  The result pairs the
returned link (line 198 / line 203) with the number of list calls made.  The
`fuel` argument is an upper bound on the iteration count, consumed one unit
per iteration; it is purely a termination device — `poll_for_email` below
supplies `timeout + 1`, which exceeds the largest possible iteration count
`ceil(timeout / EMAIL_CHECK_INTERVAL)` since the interval is 3. -/
def pollIter (inbox : Nat → List InboxMessage) (timeout : Nat) :
    Nat → Nat → Nat → Option (List Char) × Nat
  | 0, _, _ => (none, 0)
  | fuel + 1, elapsed, idx =>
    if elapsed < timeout then
      match scanInbox (inbox idx) with
      | some link => (some link, 1)
      | none =>
        match pollIter inbox timeout fuel (elapsed + EMAIL_CHECK_INTERVAL) (idx + 1) with
        | (r, n) => (r, n + 1)
    else (none, 0)

/-- Entry point matching `poll_for_email(timeout)`: start with zero elapsed
time and the first list call. -/
def poll_for_email (inbox : Nat → List InboxMessage) (timeout : Nat) :
    Option (List Char) × Nat :=
  pollIter inbox timeout (timeout + 1) 0 0

/-- Helper for C6: when no poll ever finds a link, the loop runs to the
timeout and the number of list calls from elapsed time `e` is
`(timeout - e + 2) / 3`, the ceiling of `(timeout - e) / EMAIL_CHECK_INTERVAL`. -/
theorem pollIter_no_match (inbox : Nat → List InboxMessage) (timeout : Nat)
    (h : ∀ k, scanInbox (inbox k) = none) :
    ∀ fuel elapsed idx, timeout ≤ elapsed + EMAIL_CHECK_INTERVAL * fuel →
      pollIter inbox timeout fuel elapsed idx =
        (none, (timeout - elapsed + 2) / 3) := by
  intro fuel
  induction fuel with
  | zero =>
    intro elapsed idx hb
    simp [EMAIL_CHECK_INTERVAL] at hb
    have he : timeout - elapsed = 0 := by omega
    simp [pollIter, he]
  | succ f ih =>
    intro elapsed idx hb
    by_cases hc : elapsed < timeout
    · have hE : EMAIL_CHECK_INTERVAL = 3 := rfl
      have hb2 : timeout ≤ (elapsed + EMAIL_CHECK_INTERVAL) + EMAIL_CHECK_INTERVAL * f := by
        rw [hE] at hb ⊢
        omega
      have hrec := ih (elapsed + EMAIL_CHECK_INTERVAL) (idx + 1) hb2
      rw [hE] at hrec
      simp [pollIter, hc, h idx, hE, hrec]
      omega
    · have he : timeout - elapsed = 0 := by omega
      simp [pollIter, hc, he]

/-- Claim C6: for a mailbox whose polls never yield a matching message,
`poll_for_email` returns none (an ordinary value, not an exception), making
exactly `(timeout + 2) / 3` list calls — the ceiling of
`timeout / EMAIL_CHECK_INTERVAL`, hence no more than it — and the idealised
elapsed time at return, `EMAIL_CHECK_INTERVAL` seconds per call, lands in
the window `[timeout, timeout + EMAIL_CHECK_INTERVAL)`: the configured
timeout plus at most one poll interval. -/
theorem C6_poll_timeout (inbox : Nat → List InboxMessage) (timeout : Nat)
    (h : ∀ k, scanInbox (inbox k) = none) :
    poll_for_email inbox timeout = (none, (timeout + 2) / 3)
    ∧ timeout ≤ EMAIL_CHECK_INTERVAL * ((timeout + 2) / 3)
    ∧ EMAIL_CHECK_INTERVAL * ((timeout + 2) / 3) < timeout + EMAIL_CHECK_INTERVAL := by
  have hb : timeout ≤ 0 + EMAIL_CHECK_INTERVAL * (timeout + 1) := by
    simp [EMAIL_CHECK_INTERVAL]; omega
  have h1 := pollIter_no_match inbox timeout h (timeout + 1) 0 0 hb
  have hE : EMAIL_CHECK_INTERVAL = 3 := rfl
  refine ⟨?_, ?_, ?_⟩
  · rw [poll_for_email, h1]
    norm_num
  · rw [hE]; omega
  · rw [hE]; omega

/-- Witness for C6: a provider that always returns an empty inbox, with the
default 120-second timeout, yields none after exactly 40 list calls. -/
theorem C6_witness :
    poll_for_email (fun _ => []) 120 = (none, 40)
    ∧ 120 ≤ EMAIL_CHECK_INTERVAL * 40
    ∧ EMAIL_CHECK_INTERVAL * 40 < 120 + EMAIL_CHECK_INTERVAL := by
  have h := C6_poll_timeout (fun _ => []) 120 (fun _ => rfl)
  exact ⟨h.1, h.2.1, h.2.2⟩

/-! ## Signup automation (RefToolsAutomation, lines 254-354)

Constants from lines 58-59.  The browser session holds the password generated
once in `__init__` (line 261); each signup attempt fills the password and the
confirm-password field from `self.password` (lines 315 and 321).  Whether an
attempt raises is an oracle `oc` indexed by the attempt number; a failing
attempt is modelled as raising after the form fills, at the submit/redirect
stage, so every attempt records its fill event. -/

def SIGNUP_MAX_RETRIES : Nat := 3

def SIGNUP_RETRY_DELAY : Nat := 5

/-- Alphabet of `_generate_password` (line 267):
`string.ascii_letters + string.digits + "!@#$%^&*"`. -/
def pw_alphabet : List Char :=
  chars "abcdefghijklmnopqrstuvwxyzABCDEFGHIJKLMNOPQRSTUVWXYZ"
  ++ chars "0123456789" ++ chars "!@#$%^&*"

/-- Lines 264-268: `"".join(secrets.choice(alphabet) for _ in range(length))`.
The randomness of `secrets.choice` is an oracle `choice` giving the index
drawn for each position. -/
def generate_password (choice : Nat → Nat) (length : Nat) : List Char :=
  (List.range length).map (fun i => pw_alphabet.getD (choice i % pw_alphabet.length) ' ')

/-- The browser-automation session state created by `__init__`
(lines 257-262): the password field is set once, at construction. -/
structure RefToolsAutomation where
  password : List Char
  proxy : Option (List Char)
deriving DecidableEq

/-- Line 261: `self.password = self._generate_password()` with the default
length 16, executed once per constructed session. -/
def initAutomation (choice : Nat → Nat) (proxy : Option (List Char)) : RefToolsAutomation :=
  { password := generate_password choice 16, proxy := proxy }

/-- The values one signup attempt fills into the three form fields
(lines 309, 315, 321). -/
structure FillEvent where
  email : List Char
  password : List Char
  confirmPassword : List Char
deriving DecidableEq

/-- Observable outcome of a `signup` call: its return value, the number of
attempts performed, the number of `SIGNUP_RETRY_DELAY`-second sleeps between
attempts, and the fill events of each attempt in order. -/
structure SignupRun where
  result : Bool
  attempts : Nat
  sleeps : Nat
  fills : List FillEvent
deriving DecidableEq

/-- The retry loop of lines 295-354: `for attempt in range(SIGNUP_MAX_RETRIES)`.
`remaining` is the number of loop iterations left (`SIGNUP_MAX_RETRIES - attempt`).
A successful attempt returns True immediately (line 341); a failing attempt
sleeps `SIGNUP_RETRY_DELAY` seconds and continues when `attempt <
SIGNUP_MAX_RETRIES - 1` (lines 345-349), and returns False without sleeping on
the last attempt (lines 350-352). -/
def signupGo (s : RefToolsAutomation) (oc : Nat → Bool) (email : List Char) :
    Nat → Nat → SignupRun
  | _, 0 => { result := false, attempts := 0, sleeps := 0, fills := [] }
  | attempt, 1 =>
    let fill : FillEvent :=
      { email := email, password := s.password, confirmPassword := s.password }
    if oc attempt then { result := true, attempts := 1, sleeps := 0, fills := [fill] }
    else { result := false, attempts := 1, sleeps := 0, fills := [fill] }
  | attempt, r + 2 =>
    let fill : FillEvent :=
      { email := email, password := s.password, confirmPassword := s.password }
    if oc attempt then { result := true, attempts := 1, sleeps := 0, fills := [fill] }
    else
      let rest := signupGo s oc email (attempt + 1) (r + 1)
      { result := rest.result, attempts := rest.attempts + 1,
        sleeps := rest.sleeps + 1, fills := fill :: rest.fills }

/-- `signup(email)`: run the retry loop from attempt 0 with
`SIGNUP_MAX_RETRIES` iterations available. -/
def signup (s : RefToolsAutomation) (oc : Nat → Bool) (email : List Char) : SignupRun :=
  signupGo s oc email 0 SIGNUP_MAX_RETRIES

/-- Claim C7: a signup whose attempts 1 and 2 raise and whose attempt 3
succeeds returns True after exactly 3 attempts with the configured
`SIGNUP_RETRY_DELAY` sleep between consecutive attempts (2 sleeps); a signup
raising on all 3 configured attempts returns False after exactly 3 attempts —
no 4th attempt — with the same 2 inter-attempt sleeps. -/
theorem C7_signup_retry (s : RefToolsAutomation) (oc : Nat → Bool) (email : List Char) :
    (oc 0 = false → oc 1 = false → oc 2 = true →
      signup s oc email =
        { result := true, attempts := 3, sleeps := 2,
          fills := List.replicate 3
            { email := email, password := s.password, confirmPassword := s.password } })
    ∧ ((∀ i, i < SIGNUP_MAX_RETRIES → oc i = false) →
      signup s oc email =
        { result := false, attempts := 3, sleeps := 2,
          fills := List.replicate 3
            { email := email, password := s.password, confirmPassword := s.password } }) := by
  constructor
  · intro h0 h1 h2
    simp [signup, SIGNUP_MAX_RETRIES, signupGo, h0, h1, h2, List.replicate]
  · intro h
    have h0 := h 0 (by decide)
    have h1 := h 1 (by decide)
    have h2 := h 2 (by decide)
    simp [signup, SIGNUP_MAX_RETRIES, signupGo, h0, h1, h2, List.replicate]

/-- Witness for C7: concrete outcome oracles — success exactly on the third
attempt, and failure on every attempt. -/
theorem C7_witness :
    (signup { password := chars "pw", proxy := none } (fun i => decide (i = 2)) (chars "a@b")).result = true
    ∧ (signup { password := chars "pw", proxy := none } (fun i => decide (i = 2)) (chars "a@b")).attempts = 3
    ∧ (signup { password := chars "pw", proxy := none } (fun _ => false) (chars "a@b")).result = false
    ∧ (signup { password := chars "pw", proxy := none } (fun _ => false) (chars "a@b")).attempts = 3
    ∧ (signup { password := chars "pw", proxy := none } (fun _ => false) (chars "a@b")).sleeps = 2 := by
  have ha := (C7_signup_retry { password := chars "pw", proxy := none }
    (fun i => decide (i = 2)) (chars "a@b")).1 (by decide) (by decide) (by decide)
  have hb := (C7_signup_retry { password := chars "pw", proxy := none }
    (fun _ => false) (chars "a@b")).2 (fun i _ => rfl)
  refine ⟨?_, ?_, ?_, ?_, ?_⟩
  · rw [ha]
  · rw [ha]
  · rw [hb]
  · rw [hb]
  · rw [hb]

/-- Helper for C8: every fill event emitted anywhere in the retry loop takes
both password fields from the session's stored password. -/
theorem signupGo_fills_password (s : RefToolsAutomation) (oc : Nat → Bool)
    (email : List Char) :
    ∀ remaining attempt ev, ev ∈ (signupGo s oc email attempt remaining).fills →
      ev.password = s.password ∧ ev.confirmPassword = s.password := by
  intro remaining
  induction remaining with
  | zero =>
    intro attempt ev hev
    simp [signupGo] at hev
  | succ r ih =>
    intro attempt ev hev
    match r with
    | 0 =>
      by_cases hoc : oc attempt = true <;>
        simp [signupGo, hoc] at hev <;> simp [hev]
    | r' + 1 =>
      by_cases hoc : oc attempt = true
      · simp [signupGo, hoc] at hev
        simp [hev]
      · simp [signupGo, hoc] at hev
        rcases hev with hev | hev
        · simp [hev]
        · exact ih (attempt + 1) ev hev

/-- Claim C8: the password is generated exactly once, at session
construction; on every signup attempt the password and confirm-password
fields are filled with that same at-construction value; no attempt of the
run regenerates it, so all fill events across all retries carry the
identical password. -/
theorem C8_password_once (choice : Nat → Nat) (proxy : Option (List Char))
    (oc : Nat → Bool) (email : List Char) :
    (initAutomation choice proxy).password = generate_password choice 16
    ∧ (∀ ev ∈ (signup (initAutomation choice proxy) oc email).fills,
        ev.password = generate_password choice 16
        ∧ ev.confirmPassword = generate_password choice 16)
    ∧ (∀ ev1 ∈ (signup (initAutomation choice proxy) oc email).fills,
       ∀ ev2 ∈ (signup (initAutomation choice proxy) oc email).fills,
        ev1.password = ev2.password) := by
  refine ⟨rfl, ?_, ?_⟩
  · intro ev hev
    exact signupGo_fills_password (initAutomation choice proxy) oc email
      SIGNUP_MAX_RETRIES 0 ev hev
  · intro ev1 h1 ev2 h2
    have p1 := signupGo_fills_password (initAutomation choice proxy) oc email
      SIGNUP_MAX_RETRIES 0 ev1 h1
    have p2 := signupGo_fills_password (initAutomation choice proxy) oc email
      SIGNUP_MAX_RETRIES 0 ev2 h2
    rw [p1.1, p2.1]

/-- Witness for C8: a concrete session (identity randomness oracle, indices
0..15 pick "abcdefghijklmnop") run through a fully failing signup; the head
fill event's password fields both equal the at-construction password. -/
theorem C8_witness :
    (⟨chars "a@b", chars "abcdefghijklmnop", chars "abcdefghijklmnop"⟩ : FillEvent) ∈
      (signup (initAutomation (fun i => i) none) (fun _ => false) (chars "a@b")).fills
    ∧ (chars "abcdefghijklmnop" : List Char) = generate_password (fun i => i) 16 := by
  constructor
  · decide
  · exact ((C8_password_once (fun i => i) none (fun _ => false) (chars "a@b")).2.1
      ⟨chars "a@b", chars "abcdefghijklmnop", chars "abcdefghijklmnop"⟩ (by decide)).1

/-! ## Verification-request step (RefToolsAutomation.request_verification_email, lines 356-395)

Each selector candidate's interaction can end four ways, given by an oracle
value per selector; `count()` or `wait_for`/`click()` raising is modelled as
an `Except.error`.  The inner `try/except` (lines 373-388) catches a
selector's error and continues with the next selector; the outer `try/except`
(lines 358-395) catches anything else and returns normally — the function
never propagates an exception and the caller's flow continues regardless. -/

/-- Outcome of one selector candidate's interaction. -/
inductive SelOutcome where
  | countError
  | zeroCount
  | visibleError
  | clicked
deriving DecidableEq

/-- Lines 374-385: the body of one selector's `try` block; `.ok true` means
the button was clicked, `.ok false` means `count() == 0`, `.error` models a
raising `count`, `wait_for` or `click` call. -/
def tryClickSelector (o : SelOutcome) : Except (List Char) Bool :=
  match o with
  | .countError => .error (chars "count failed")
  | .zeroCount => .ok false
  | .visibleError => .error (chars "interaction failed")
  | .clicked => .ok true

/-- Lines 372-388: the selector loop; an error is caught by the inner
`except` and the loop continues (line 388); a click breaks out; `count == 0`
also moves to the next selector. Returns whether any selector was clicked. -/
def reqVerifLoop : List SelOutcome → Except (List Char) Bool
  | [] => .ok false
  | o :: rest =>
    match tryClickSelector o with
    | .error _ => reqVerifLoop rest
    | .ok true => .ok true
    | .ok false => reqVerifLoop rest

/-- Lines 356-395: the whole step. The outer `except` (lines 393-395) logs
and deliberately does not re-raise, so the step completes normally for every
outcome; a not-clicked run only logs a warning (line 391). -/
def request_verification_email (outcomes : List SelOutcome) : Except (List Char) Unit :=
  match reqVerifLoop outcomes with
  | .error _ => .ok ()
  | .ok _ => .ok ()

/-! ## Orchestrator decision flow (main, lines 588-632)

`mainFlow` captures the decision structure of `main` after browser/mailbox
initialisation: what the run prints and returns for each combination of step
outcomes.  `credentials` is the email/password pair printed for the user
(lines 629-631 on key-extraction failure, lines 646-648 on success); the
signup-failure exit (lines 597-599) and the verification-timeout exit
(lines 612-614) print only an error line. -/

/-- Terminal observable outcome of one orchestrator run. -/
structure RunReport where
  apiKey : Option (List Char)
  credentials : Option (List Char × List Char)
  succeeded : Bool
deriving DecidableEq

/-- Lines 588-632 of `main`: the sequence of step decisions.  `signupOk` is
the result of `ref_tools.signup`, `link` the result of
`guerrilla.poll_for_email`, `key` the result of `ref_tools.extract_api_key`;
the verification-request step runs between signup and polling and its result
is discarded (line 605). -/
def mainFlow (email password : List Char) (signupOk : Bool)
    (verifOutcomes : List SelOutcome) (link : Option (List Char))
    (key : Option (List Char)) : RunReport :=
  if signupOk = false then
    { apiKey := none, credentials := none, succeeded := false }
  else
    let _ := request_verification_email verifOutcomes
    match link with
    | none => { apiKey := none, credentials := none, succeeded := false }
    | some _ =>
      match key with
      | none =>
        { apiKey := none, credentials := some (email, password), succeeded := false }
      | some k =>
        { apiKey := some k, credentials := some (email, password), succeeded := true }

/-- Claim C3 counterexample: when signup succeeds but the verification link
never arrives (poll returns none), `main` prints only the error line and
returns — the email/password credentials are not surfaced, contradicting the
claim that they are. -/
theorem C3_counterexample :
    (mainFlow (chars "a@b.c") (chars "pw") true [] none none).credentials = none
    ∧ (mainFlow (chars "a@b.c") (chars "pw") true [] none none).apiKey = none := by
  constructor <;> rfl

/-- Claim C3 (amended): on verification-link timeout the orchestrator aborts
the run with no key and does not surface the partial credentials; the
credentials are surfaced for manual completion only when the flow reaches key
extraction and it fails (and on success). -/
theorem C3_amended_thm (email password : List Char) (verifOutcomes : List SelOutcome)
    (key : Option (List Char)) (link : List Char) :
    mainFlow email password true verifOutcomes none key =
      { apiKey := none, credentials := none, succeeded := false }
    ∧ mainFlow email password true verifOutcomes (some link) none =
      { apiKey := none, credentials := some (email, password), succeeded := false } := by
  constructor <;> rfl

/-- Claim C9: the verification-request step completes normally (never
propagates an exception) for every combination of selector outcomes, and the
orchestrator's subsequent behaviour does not depend on what happened inside
it: the flow proceeds identically for any two outcome lists. -/
theorem C9_nonfatal (outcomes : List SelOutcome) :
    request_verification_email outcomes = Except.ok ()
    ∧ (∀ (email password : List Char) (signupOk : Bool)
        (outcomes2 : List SelOutcome) (link key : Option (List Char)),
        mainFlow email password signupOk outcomes link key =
          mainFlow email password signupOk outcomes2 link key) := by
  constructor
  · rw [request_verification_email]
    cases reqVerifLoop outcomes <;> rfl
  · intro email password signupOk outcomes2 link key
    rfl

/-! ## Proxy retry (main, lines 540-541, 666-683; main_with_retry, lines 699-701)

`main` sets the local `proxy_attempt = 0` (line 541) and never changes it.
On an exception it checks `proxies and proxy_attempt < MAX_PROXY_RETRIES and
proxy_attempt < len(proxies)` (line 670) and, when the check passes, calls
`main_with_retry(proxy_attempt + 1, proxies)` (line 680) — but
`main_with_retry` ignores both of its parameters and simply calls `main()`
again (lines 699-701), where the attempt counter is 0 once more.  `mainRun
poolSize fuel` returns the number of full attempts until the orchestrator
reports final failure, or none when `fuel` recursion levels were exhausted
without ever reaching that report.  A fault is injected on every attempt, as
in the claim's scenario, and the pool keeps `poolSize` entries on each
re-fetch. -/

def MAX_PROXY_RETRIES : Nat := 5

/-- One invocation of `main` under an always-faulting attempt, with the
retry decision of lines 670-680 and the argument-dropping delegation of
`main_with_retry` inlined (its parameters never reach `main`). -/
def mainRun (poolSize : Nat) : Nat → Option Nat
  | 0 => none
  | fuel + 1 =>
    let proxy_attempt := 0
    if 0 < poolSize ∧ proxy_attempt < MAX_PROXY_RETRIES ∧ proxy_attempt < poolSize then
      (mainRun poolSize fuel).map (· + 1)
    else some 1

/-- Line 699-701: `main_with_retry` discards `proxy_attempt` and `proxies`
and restarts `main` from scratch. -/
def main_with_retry (_proxy_attempt : Nat) (poolSize : Nat) (fuel : Nat) : Option Nat :=
  mainRun poolSize fuel

/-- Claim C4 counterexample: with a 2-entry pool and a fault on every
attempt, the orchestrator does not perform exactly 2 attempts and then
surface final failure — even granted a 50-deep recursion budget it has not
terminated, so the modelled attempt count never equals 2. -/
theorem C4_counterexample : mainRun 2 50 ≠ some 2 := by decide

/-- Claim C4 (amended): with a 2-entry pool and a fault injected on every
attempt, the retry guard always passes because `main_with_retry` drops its
incremented attempt argument and `main` restarts with the counter at 0, so
the orchestrator retries without bound and never reaches a final-failure
report: retries are not bounded by min(pool size, configured max retries). -/
theorem C4_amended_thm : ∀ fuel, mainRun 2 fuel = none
    ∧ main_with_retry (0 + 1) 2 fuel = mainRun 2 fuel := by
  intro fuel
  induction fuel with
  | zero => exact ⟨rfl, rfl⟩
  | succ f ih =>
    constructor
    · rw [mainRun]
      simp only [MAX_PROXY_RETRIES]
      rw [if_pos (by omega)]
      rw [ih.1]
      rfl
    · rfl

/-! ## Proxy formatting (format_proxy, lines 103-121) -/

/-- Lines 113-121: `None`/empty maps to `None`; a string already carrying one
of the four recognised schemes is returned unchanged; anything else gets
`http://` prepended. -/
def format_proxy (proxy : List Char) : Option (List Char) :=
  if proxy.isEmpty then none
  else if (chars "http://").isPrefixOf proxy || (chars "https://").isPrefixOf proxy
      || (chars "socks4://").isPrefixOf proxy || (chars "socks5://").isPrefixOf proxy then
    some proxy
  else some (chars "http://" ++ proxy)

/-- Claim C10: `format_proxy` returns none exactly on the empty (falsy)
input; returns the input unchanged whenever it starts with `http://`,
`https://`, `socks4://` or `socks5://`; and for every other non-empty input —
including ones carrying an unrecognised scheme — returns the input with
`http://` prepended. -/
theorem C10_format_proxy (proxy : List Char) :
    (proxy = [] → format_proxy proxy = none)
    ∧ (((chars "http://").isPrefixOf proxy || (chars "https://").isPrefixOf proxy
        || (chars "socks4://").isPrefixOf proxy
        || (chars "socks5://").isPrefixOf proxy) = true →
      format_proxy proxy = some proxy)
    ∧ (proxy ≠ [] →
      ((chars "http://").isPrefixOf proxy || (chars "https://").isPrefixOf proxy
        || (chars "socks4://").isPrefixOf proxy
        || (chars "socks5://").isPrefixOf proxy) = false →
      format_proxy proxy = some (chars "http://" ++ proxy)) := by
  refine ⟨?_, ?_, ?_⟩
  · intro h
    simp [format_proxy, h]
  · intro h
    have hne : proxy.isEmpty = false := by
      cases proxy with
      | nil => revert h; decide
      | cons c rest => rfl
    simp [format_proxy, hne, h]
  · intro h1 h2
    have hne : proxy.isEmpty = false := by
      cases proxy with
      | nil => exact absurd rfl h1
      | cons c rest => rfl
    simp only [format_proxy, hne, Bool.false_eq_true, if_false, h2]

/-- Witness for C10: the empty input, a socks5 proxy kept unchanged, a bare
host:port getting the http scheme, and an unrecognised scheme also getting
the http scheme prepended. -/
theorem C10_witness :
    format_proxy [] = none
    ∧ format_proxy (chars "socks5://1.2.3.4:1080") = some (chars "socks5://1.2.3.4:1080")
    ∧ format_proxy (chars "1.2.3.4:8080") = some (chars "http://1.2.3.4:8080")
    ∧ format_proxy (chars "ftp://1.2.3.4:21") = some (chars "http://ftp://1.2.3.4:21") := by
  refine ⟨?_, ?_, ?_, ?_⟩
  · exact (C10_format_proxy []).1 rfl
  · exact (C10_format_proxy (chars "socks5://1.2.3.4:1080")).2.1 (by decide)
  · exact (C10_format_proxy (chars "1.2.3.4:8080")).2.2 (by decide) (by decide)
  · exact (C10_format_proxy (chars "ftp://1.2.3.4:21")).2.2 (by decide) (by decide)
